import Mathlib

/-
Verification of the atomic-swap pallet (frame/atomic-swap/src/lib.rs).

The pallet is embedded shallowly:

* `AccountId` and `BlockNumber` are `Nat`; `HashedProof` (the `[u8; 32]`
  blake2_256 output) is a byte list.
* The generic parameters of the pallet — the `SwapAction` type, the external
  ledger acted on by reserve/claim/cancel, and the action-specific dispatch
  error — are type parameters `Action`, `Ext`, `E`.
* A `SwapEnv` bundles the externally supplied collaborators: the configured
  `ProofLimit`, the current block number read from `frame_system`, the
  `blake2_256` hash function, and the `SwapAction` trait methods
  (`reserve`, `claim`, `cancel`) as functions over the external state.
* The `PendingSwaps` double map is an association list keyed by
  `(target, hashed_proof)`; `getSwap` returns the first matching entry,
  `insertSwap` prepends (shadowing semantics) and `removeSwap` drops every
  entry of the key, so the map semantics coincide with the storage map.
* Each dispatchable returns `(Except (DispatchError E) Unit) × SwapState`:
  the state component is the storage as left by the call, also on the error
  paths, mirroring the source's verify-first/write-last structure, so
  "errors leave no partial effects" is a genuine theorem about the order of
  the checks and not an artifact of the embedding.
-/

set_option linter.unusedSectionVars false

namespace AtomicSwap

/-- Account identifiers, supplied already authenticated (`ensure_signed`). -/
abbrev AccountId := Nat

/-- Block numbers, read from the external monotone counter. -/
abbrev BlockNumber := Nat

/-- Hashed proof type: the 32-byte `blake2_256` output, as a byte list. -/
abbrev HashedProof := List Nat

/-- Pending atomic swap operation (struct `PendingSwap` of the source). -/
structure PendingSwap (Action : Type) where
  source : AccountId
  action : Action
  end_block : BlockNumber
deriving DecidableEq

/-- Events of the atomic swap pallet (enum `Event`). -/
inductive SwapEvent (Action : Type) where
  | NewSwap : AccountId → HashedProof → PendingSwap Action → SwapEvent Action
  | SwapClaimed : AccountId → HashedProof → Bool → SwapEvent Action
  | SwapCancelled : AccountId → HashedProof → SwapEvent Action
deriving DecidableEq

/-- Errors of the atomic swap pallet (enum `Error`). -/
inductive SwapError where
  | AlreadyExist
  | InvalidProof
  | ProofTooLarge
  | SourceMismatch
  | AlreadyClaimed
  | NotExist
  | ClaimActionMismatch
  | DurationNotPassed
deriving DecidableEq

/-- A dispatch error: either one of the pallet's own errors, or an
action-specific error `E` propagated verbatim from `SwapAction::reserve`. -/
inductive DispatchError (E : Type) where
  | Module : SwapError → DispatchError E
  | Other : E → DispatchError E
deriving DecidableEq

/-- The externally supplied collaborators of the pallet: configuration
(`ProofLimit`), the block counter, the hash function, and the three
`SwapAction` trait methods acting on an external ledger state `Ext`. -/
structure SwapEnv (Action Ext E : Type) where
  proofLimit : Nat
  blockNumber : BlockNumber
  blake2_256 : List Nat → HashedProof
  reserveA : Action → AccountId → Ext → Except E Ext
  claimA : Action → AccountId → AccountId → Ext → Bool × Ext
  cancelA : Action → AccountId → Ext → Ext

/-- The `PendingSwaps` double storage map, as an association list on the
composite key `(target, hashed_proof)`. -/
abbrev PendingSwaps (Action : Type) := List ((AccountId × HashedProof) × PendingSwap Action)

variable {Action Ext E : Type}

/-- `PendingSwaps::get`: first entry with the given key. -/
def getSwap : PendingSwaps Action → AccountId → HashedProof → Option (PendingSwap Action)
  | [], _, _ => none
  | (k, v) :: rest, t, h => if k = (t, h) then some v else getSwap rest t h

/-- `PendingSwaps::contains_key`. -/
def contains_key (s : PendingSwaps Action) (t : AccountId) (h : HashedProof) : Bool :=
  (getSwap s t h).isSome

/-- `PendingSwaps::remove`: drop every entry with the given key. -/
def removeSwap : PendingSwaps Action → AccountId → HashedProof → PendingSwaps Action
  | [], _, _ => []
  | (k, v) :: rest, t, h =>
    if k = (t, h) then removeSwap rest t h else (k, v) :: removeSwap rest t h

/-- `PendingSwaps::insert`: prepend; `getSwap` takes the first match, so this
is map overwrite. -/
def insertSwap (s : PendingSwaps Action) (t : AccountId) (h : HashedProof)
    (v : PendingSwap Action) : PendingSwaps Action :=
  ((t, h), v) :: s

/-- Full observable pallet state: the storage map, the deposited events, and
the external ledger state the actions act on. -/
structure SwapState (Action Ext : Type) where
  pendingSwaps : PendingSwaps Action
  events : List (SwapEvent Action)
  ext : Ext
deriving DecidableEq

variable [DecidableEq Action]

/-- Dispatchable `create_swap(origin, target, hashed_proof, action, duration)`.
Checks `AlreadyExist`, then calls `action.reserve(&source)?`, then inserts
`PendingSwap { source, action, end_block: block_number() + duration }` and
deposits `NewSwap`. -/
def create_swap (env : SwapEnv Action Ext E) (st : SwapState Action Ext)
    (source target : AccountId) (hashed_proof : HashedProof)
    (action : Action) (duration : BlockNumber) :
    Except (DispatchError E) Unit × SwapState Action Ext :=
  if contains_key st.pendingSwaps target hashed_proof then
    (Except.error (DispatchError.Module SwapError.AlreadyExist), st)
  else
    match env.reserveA action source st.ext with
    | Except.error e => (Except.error (DispatchError.Other e), st)
    | Except.ok ext1 =>
      let swap : PendingSwap Action :=
        { source := source, action := action, end_block := env.blockNumber + duration }
      (Except.ok (),
        { pendingSwaps := insertSwap st.pendingSwaps target hashed_proof swap
          events := st.events ++ [SwapEvent.NewSwap target hashed_proof swap]
          ext := ext1 })

/-- Dispatchable `claim_swap(origin, proof, action)`. Checks `ProofTooLarge`
before hashing, hashes the proof, looks up `(target, hashed_proof)`
(`InvalidProof` if absent), checks `ClaimActionMismatch`, then calls
`swap.action.claim(&swap.source, &target)`, removes the record
unconditionally and deposits `SwapClaimed` with the claim outcome. -/
def claim_swap (env : SwapEnv Action Ext E) (st : SwapState Action Ext)
    (target : AccountId) (proof : List Nat) (action : Action) :
    Except (DispatchError E) Unit × SwapState Action Ext :=
  if proof.length ≤ env.proofLimit then
    let hashed_proof := env.blake2_256 proof
    match getSwap st.pendingSwaps target hashed_proof with
    | none => (Except.error (DispatchError.Module SwapError.InvalidProof), st)
    | some swap =>
      if swap.action = action then
        let r := env.claimA swap.action swap.source target st.ext
        (Except.ok (),
          { pendingSwaps := removeSwap st.pendingSwaps target hashed_proof
            events := st.events ++ [SwapEvent.SwapClaimed target hashed_proof r.1]
            ext := r.2 })
      else (Except.error (DispatchError.Module SwapError.ClaimActionMismatch), st)
  else (Except.error (DispatchError.Module SwapError.ProofTooLarge), st)

/-- Dispatchable `cancel_swap(origin, target, hashed_proof)`. Looks up the
record (`NotExist` if absent), checks `SourceMismatch`, checks
`block_number() >= swap.end_block` (`DurationNotPassed`), then calls
`swap.action.cancel(&swap.source)`, removes the record and deposits
`SwapCancelled`. -/
def cancel_swap (env : SwapEnv Action Ext E) (st : SwapState Action Ext)
    (source target : AccountId) (hashed_proof : HashedProof) :
    Except (DispatchError E) Unit × SwapState Action Ext :=
  match getSwap st.pendingSwaps target hashed_proof with
  | none => (Except.error (DispatchError.Module SwapError.NotExist), st)
  | some swap =>
    if swap.source = source then
      if swap.end_block ≤ env.blockNumber then
        (Except.ok (),
          { pendingSwaps := removeSwap st.pendingSwaps target hashed_proof
            events := st.events ++ [SwapEvent.SwapCancelled target hashed_proof]
            ext := env.cancelA swap.action swap.source st.ext })
      else (Except.error (DispatchError.Module SwapError.DurationNotPassed), st)
    else (Except.error (DispatchError.Module SwapError.SourceMismatch), st)

/-- Concrete environment for exercising the operations: actions are plain
numbers, the external ledger state is a number, the action-specific error is
`Unit`; the hash bumps every byte, reservation succeeds for action values up
to 100, and the claim outcome is whether the action value is even. -/
def envW : SwapEnv Nat Nat Unit where
  proofLimit := 4
  blockNumber := 10
  blake2_256 := fun l => l.map (fun x => x + 1)
  reserveA := fun a _ x => if a ≤ 100 then Except.ok (x + a) else Except.error ()
  claimA := fun a _ _ x => (decide (a % 2 = 0), x + 2)
  cancelA := fun _ _ x => x + 3

/-- The same environment observed at block 20, past the deadline of the swap
held in `stW`. -/
def envW2 : SwapEnv Nat Nat Unit := { envW with blockNumber := 20 }

/-- Concrete state holding one pending swap: target 2, hashed proof `[6]`
(the hash of proof `[5]` under `envW`), source 1, action 7, deadline 15. -/
def stW : SwapState Nat Nat where
  pendingSwaps := [((2, [6]), { source := 1, action := 7, end_block := 15 })]
  events := []
  ext := 0

/-! ### Storage map lemmas -/

theorem getSwap_removeSwap_self (s : PendingSwaps Action) (t : AccountId) (h : HashedProof) :
    getSwap (removeSwap s t h) t h = none := by
  induction s with
  | nil => rfl
  | cons p rest ih =>
    obtain ⟨k, v⟩ := p
    by_cases hk : k = (t, h)
    · simp [removeSwap, hk, ih]
    · simp [removeSwap, getSwap, hk, ih]

theorem getSwap_removeSwap_ne (s : PendingSwaps Action) (t : AccountId) (h : HashedProof)
    (t' : AccountId) (h' : HashedProof) (hne : (t', h') ≠ (t, h)) :
    getSwap (removeSwap s t h) t' h' = getSwap s t' h' := by
  induction s with
  | nil => rfl
  | cons p rest ih =>
    obtain ⟨k, v⟩ := p
    by_cases hk : k = (t, h)
    · subst hk
      have hne2 : ((t, h) : AccountId × HashedProof) ≠ (t', h') := fun hc => hne hc.symm
      simp [removeSwap, getSwap, hne2, ih]
    · by_cases hk' : k = (t', h')
      · subst hk'
        simp [removeSwap, getSwap, hne, ih]
      · simp [removeSwap, getSwap, hk, hk', ih]

theorem getSwap_insertSwap_self (s : PendingSwaps Action) (t : AccountId) (h : HashedProof)
    (v : PendingSwap Action) :
    getSwap (insertSwap s t h v) t h = some v := by
  simp [insertSwap, getSwap]

theorem getSwap_insertSwap_ne (s : PendingSwaps Action) (t : AccountId) (h : HashedProof)
    (v : PendingSwap Action) (t' : AccountId) (h' : HashedProof)
    (hne : (t', h') ≠ (t, h)) :
    getSwap (insertSwap s t h v) t' h' = getSwap s t' h' := by
  have : (t, h) ≠ (t', h') := fun hc => hne hc.symm
  simp [insertSwap, getSwap, this]

/-! ### Specification equations for the three dispatchables -/

theorem create_swap_ok_eq (env : SwapEnv Action Ext E) (st : SwapState Action Ext)
    (source target : AccountId) (hashed_proof : HashedProof) (action : Action)
    (duration : BlockNumber) (ext1 : Ext)
    (hfresh : contains_key st.pendingSwaps target hashed_proof = false)
    (hres : env.reserveA action source st.ext = Except.ok ext1) :
    create_swap env st source target hashed_proof action duration =
      (Except.ok (),
        { pendingSwaps := insertSwap st.pendingSwaps target hashed_proof
            { source := source, action := action, end_block := env.blockNumber + duration }
          events := st.events ++ [SwapEvent.NewSwap target hashed_proof
            { source := source, action := action, end_block := env.blockNumber + duration }]
          ext := ext1 }) := by
  unfold create_swap
  simp [hfresh, hres]

theorem create_swap_exists_eq (env : SwapEnv Action Ext E) (st : SwapState Action Ext)
    (source target : AccountId) (hashed_proof : HashedProof) (action : Action)
    (duration : BlockNumber)
    (hex : contains_key st.pendingSwaps target hashed_proof = true) :
    create_swap env st source target hashed_proof action duration =
      (Except.error (DispatchError.Module SwapError.AlreadyExist), st) := by
  unfold create_swap
  simp [hex]

theorem create_swap_reserve_fail_eq (env : SwapEnv Action Ext E) (st : SwapState Action Ext)
    (source target : AccountId) (hashed_proof : HashedProof) (action : Action)
    (duration : BlockNumber) (e : E)
    (hfresh : contains_key st.pendingSwaps target hashed_proof = false)
    (hres : env.reserveA action source st.ext = Except.error e) :
    create_swap env st source target hashed_proof action duration =
      (Except.error (DispatchError.Other e), st) := by
  unfold create_swap
  simp [hfresh, hres]

theorem claim_swap_ok_eq (env : SwapEnv Action Ext E) (st : SwapState Action Ext)
    (target : AccountId) (proof : List Nat) (action : Action) (swap : PendingSwap Action)
    (hlen : proof.length ≤ env.proofLimit)
    (hget : getSwap st.pendingSwaps target (env.blake2_256 proof) = some swap)
    (hact : swap.action = action) :
    claim_swap env st target proof action =
      (Except.ok (),
        { pendingSwaps := removeSwap st.pendingSwaps target (env.blake2_256 proof)
          events := st.events ++ [SwapEvent.SwapClaimed target (env.blake2_256 proof)
            (env.claimA swap.action swap.source target st.ext).1]
          ext := (env.claimA swap.action swap.source target st.ext).2 }) := by
  unfold claim_swap
  simp [hlen, hget, hact]

theorem claim_swap_too_large_eq (env : SwapEnv Action Ext E) (st : SwapState Action Ext)
    (target : AccountId) (proof : List Nat) (action : Action)
    (hlen : env.proofLimit < proof.length) :
    claim_swap env st target proof action =
      (Except.error (DispatchError.Module SwapError.ProofTooLarge), st) := by
  unfold claim_swap
  simp [Nat.not_le.mpr hlen]

theorem claim_swap_invalid_eq (env : SwapEnv Action Ext E) (st : SwapState Action Ext)
    (target : AccountId) (proof : List Nat) (action : Action)
    (hlen : proof.length ≤ env.proofLimit)
    (hget : getSwap st.pendingSwaps target (env.blake2_256 proof) = none) :
    claim_swap env st target proof action =
      (Except.error (DispatchError.Module SwapError.InvalidProof), st) := by
  unfold claim_swap
  simp [hlen, hget]

theorem claim_swap_mismatch_eq (env : SwapEnv Action Ext E) (st : SwapState Action Ext)
    (target : AccountId) (proof : List Nat) (action : Action) (swap : PendingSwap Action)
    (hlen : proof.length ≤ env.proofLimit)
    (hget : getSwap st.pendingSwaps target (env.blake2_256 proof) = some swap)
    (hact : swap.action ≠ action) :
    claim_swap env st target proof action =
      (Except.error (DispatchError.Module SwapError.ClaimActionMismatch), st) := by
  unfold claim_swap
  simp [hlen, hget, hact]

theorem cancel_swap_ok_eq (env : SwapEnv Action Ext E) (st : SwapState Action Ext)
    (source target : AccountId) (hashed_proof : HashedProof) (swap : PendingSwap Action)
    (hget : getSwap st.pendingSwaps target hashed_proof = some swap)
    (hsrc : swap.source = source)
    (hdl : swap.end_block ≤ env.blockNumber) :
    cancel_swap env st source target hashed_proof =
      (Except.ok (),
        { pendingSwaps := removeSwap st.pendingSwaps target hashed_proof
          events := st.events ++ [SwapEvent.SwapCancelled target hashed_proof]
          ext := env.cancelA swap.action swap.source st.ext }) := by
  unfold cancel_swap
  simp [hget, hsrc, hdl]

theorem cancel_swap_not_exist_eq (env : SwapEnv Action Ext E) (st : SwapState Action Ext)
    (source target : AccountId) (hashed_proof : HashedProof)
    (hget : getSwap st.pendingSwaps target hashed_proof = none) :
    cancel_swap env st source target hashed_proof =
      (Except.error (DispatchError.Module SwapError.NotExist), st) := by
  unfold cancel_swap
  simp [hget]

theorem cancel_swap_src_mismatch_eq (env : SwapEnv Action Ext E) (st : SwapState Action Ext)
    (source target : AccountId) (hashed_proof : HashedProof) (swap : PendingSwap Action)
    (hget : getSwap st.pendingSwaps target hashed_proof = some swap)
    (hsrc : swap.source ≠ source) :
    cancel_swap env st source target hashed_proof =
      (Except.error (DispatchError.Module SwapError.SourceMismatch), st) := by
  unfold cancel_swap
  simp [hget, hsrc]

theorem cancel_swap_not_passed_eq (env : SwapEnv Action Ext E) (st : SwapState Action Ext)
    (source target : AccountId) (hashed_proof : HashedProof) (swap : PendingSwap Action)
    (hget : getSwap st.pendingSwaps target hashed_proof = some swap)
    (hsrc : swap.source = source)
    (hdl : env.blockNumber < swap.end_block) :
    cancel_swap env st source target hashed_proof =
      (Except.error (DispatchError.Module SwapError.DurationNotPassed), st) := by
  unfold cancel_swap
  simp [hget, hsrc, Nat.not_le.mpr hdl]

/-! ### Claim theorems -/

/-- C1: for every pending swap stored at `(target, hash(proof))`, a
`claim_swap` by the target supplying that proof (within the length limit)
and an action equal to the stored one returns success, removes exactly that
record (every other key is untouched), and deposits a `SwapClaimed` event
whose boolean flag is the result of the action's claim call — whatever that
result is, since the claim semantics `env.claimA` is arbitrary here. -/
theorem claim_swap_resolves_exactly_once (env : SwapEnv Action Ext E)
    (st : SwapState Action Ext) (target : AccountId) (proof : List Nat)
    (action : Action) (swap : PendingSwap Action)
    (hlen : proof.length ≤ env.proofLimit)
    (hget : getSwap st.pendingSwaps target (env.blake2_256 proof) = some swap)
    (hact : swap.action = action) :
    (claim_swap env st target proof action).1 = Except.ok () ∧
    getSwap (claim_swap env st target proof action).2.pendingSwaps target
      (env.blake2_256 proof) = none ∧
    (∀ t' h', (t', h') ≠ (target, env.blake2_256 proof) →
      getSwap (claim_swap env st target proof action).2.pendingSwaps t' h' =
        getSwap st.pendingSwaps t' h') ∧
    (claim_swap env st target proof action).2.events =
      st.events ++ [SwapEvent.SwapClaimed target (env.blake2_256 proof)
        (env.claimA swap.action swap.source target st.ext).1] := by
  rw [claim_swap_ok_eq env st target proof action swap hlen hget hact]
  refine ⟨rfl, getSwap_removeSwap_self .., ?_, rfl⟩
  intro t' h' hne
  exact getSwap_removeSwap_ne _ _ _ _ _ hne

/-- Witness for C1: the swap of `stW` is claimed by target 2 with proof
`[5]` and matching action 7; the transfer outcome reported in the event is
`false` (action 7 is odd under `envW`), yet the call succeeds and the record
is removed. -/
theorem claim_swap_resolves_exactly_once_witness :
    ([5] : List Nat).length ≤ envW.proofLimit ∧
    getSwap stW.pendingSwaps 2 (envW.blake2_256 [5]) =
      some { source := 1, action := 7, end_block := 15 } ∧
    (claim_swap envW stW 2 [5] 7).1 = Except.ok () ∧
    getSwap (claim_swap envW stW 2 [5] 7).2.pendingSwaps 2 (envW.blake2_256 [5]) = none ∧
    (claim_swap envW stW 2 [5] 7).2.events =
      stW.events ++ [SwapEvent.SwapClaimed 2 (envW.blake2_256 [5]) false] := by
  have h := claim_swap_resolves_exactly_once envW stW 2 [5] 7
    { source := 1, action := 7, end_block := 15 } (by decide) (by decide) rfl
  exact ⟨by decide, by decide, h.1, h.2.1, h.2.2.2⟩

/-- C2: for each of the three dispatchables, on every starting state, an
error result leaves the whole observable state — pending-swap store, event
list and external ledger — exactly as it was: every precondition check in
the source precedes every mutating call. -/
theorem errors_leave_no_partial_effects (env : SwapEnv Action Ext E)
    (st : SwapState Action Ext) :
    (∀ source target hashed_proof action duration err,
      (create_swap env st source target hashed_proof action duration).1 =
        Except.error err →
      (create_swap env st source target hashed_proof action duration).2 = st) ∧
    (∀ target proof action err,
      (claim_swap env st target proof action).1 = Except.error err →
      (claim_swap env st target proof action).2 = st) ∧
    (∀ source target hashed_proof err,
      (cancel_swap env st source target hashed_proof).1 = Except.error err →
      (cancel_swap env st source target hashed_proof).2 = st) := by
  refine ⟨?_, ?_, ?_⟩
  · intro source target hashed_proof action duration err
    unfold create_swap
    split
    · intro _; rfl
    · split
      · intro _; rfl
      · intro hc; simp at hc
  · intro target proof action err
    unfold claim_swap
    split
    · dsimp only
      split
      · intro _; rfl
      · split
        · intro hc; simp at hc
        · intro _; rfl
    · intro _; rfl
  · intro source target hashed_proof err
    unfold cancel_swap
    split
    · intro _; rfl
    · split
      · split
        · intro hc; simp at hc
        · intro _; rfl
      · intro _; rfl

/-- Witness for C2: four concrete failing calls — `AlreadyExist` on an
occupied key, a reservation failure (action 200 exceeds the reservable
bound of `envW`), `ProofTooLarge` on a five-byte proof, `SourceMismatch` on
a cancel by account 3 — all return `stW` unchanged. -/
theorem errors_leave_no_partial_effects_witness :
    (create_swap envW stW 1 2 [6] 7 5).1 =
      Except.error (DispatchError.Module SwapError.AlreadyExist) ∧
    (create_swap envW stW 1 2 [6] 7 5).2 = stW ∧
    (create_swap envW stW 1 3 [9] 200 5).2 = stW ∧
    (claim_swap envW stW 2 [9, 9, 9, 9, 9] 7).2 = stW ∧
    (cancel_swap envW stW 3 2 [6]).2 = stW := by
  have h := errors_leave_no_partial_effects envW stW
  exact ⟨rfl,
    h.1 1 2 [6] 7 5 (DispatchError.Module SwapError.AlreadyExist) rfl,
    h.1 1 3 [9] 200 5 (DispatchError.Other ()) rfl,
    h.2.1 2 [9, 9, 9, 9, 9] 7 (DispatchError.Module SwapError.ProofTooLarge) rfl,
    h.2.2 3 2 [6] (DispatchError.Module SwapError.SourceMismatch) rfl⟩

/-- C3: `create_swap` on a fresh `(target, hashed_proof)` key whose
reservation succeeds returns success, makes `contains_key` true, and stores
exactly `{ source := caller, action, end_block := blockNumber + duration }`;
the `NewSwap` event carries the full record. -/
theorem create_swap_fresh_inserts_record (env : SwapEnv Action Ext E)
    (st : SwapState Action Ext) (source target : AccountId)
    (hashed_proof : HashedProof) (action : Action) (duration : BlockNumber)
    (ext1 : Ext)
    (hfresh : contains_key st.pendingSwaps target hashed_proof = false)
    (hres : env.reserveA action source st.ext = Except.ok ext1) :
    (create_swap env st source target hashed_proof action duration).1 =
      Except.ok () ∧
    contains_key (create_swap env st source target hashed_proof action
      duration).2.pendingSwaps target hashed_proof = true ∧
    getSwap (create_swap env st source target hashed_proof action
      duration).2.pendingSwaps target hashed_proof =
      some { source := source, action := action,
             end_block := env.blockNumber + duration } ∧
    (create_swap env st source target hashed_proof action duration).2.events =
      st.events ++ [SwapEvent.NewSwap target hashed_proof
        { source := source, action := action,
          end_block := env.blockNumber + duration }] := by
  rw [create_swap_ok_eq env st source target hashed_proof action duration ext1
    hfresh hres]
  refine ⟨rfl, ?_, getSwap_insertSwap_self .., rfl⟩
  simp [contains_key, getSwap_insertSwap_self]

/-- Witness for C3: account 1 creates a swap for target 3 at the fresh key
`[9]` with action 7 and duration 5 at block 10; the stored record has
deadline 15. -/
theorem create_swap_fresh_inserts_record_witness :
    contains_key stW.pendingSwaps 3 [9] = false ∧
    envW.reserveA 7 1 stW.ext = Except.ok 7 ∧
    (create_swap envW stW 1 3 [9] 7 5).1 = Except.ok () ∧
    getSwap (create_swap envW stW 1 3 [9] 7 5).2.pendingSwaps 3 [9] =
      some { source := 1, action := 7, end_block := 15 } := by
  have h := create_swap_fresh_inserts_record envW stW 1 3 [9] 7 5 7
    (by decide) rfl
  exact ⟨by decide, rfl, h.1, h.2.2.1⟩

/-- C4: `create_swap` addressed to an occupied `(target, hashed_proof)` key
fails with `AlreadyExist` and returns the state unchanged — in particular
the original record is still there — for every caller, action and
duration. -/
theorem create_swap_existing_fails_already_exist (env : SwapEnv Action Ext E)
    (st : SwapState Action Ext) (source target : AccountId)
    (hashed_proof : HashedProof) (action : Action) (duration : BlockNumber)
    (swap : PendingSwap Action)
    (hget : getSwap st.pendingSwaps target hashed_proof = some swap) :
    (create_swap env st source target hashed_proof action duration).1 =
      Except.error (DispatchError.Module SwapError.AlreadyExist) ∧
    (create_swap env st source target hashed_proof action duration).2 = st ∧
    getSwap (create_swap env st source target hashed_proof action
      duration).2.pendingSwaps target hashed_proof = some swap := by
  have hex : contains_key st.pendingSwaps target hashed_proof = true := by
    simp [contains_key, hget]
  rw [create_swap_exists_eq env st source target hashed_proof action duration hex]
  exact ⟨rfl, rfl, hget⟩

/-- Witness for C4: a second creation at the occupied key `(2, [6])` of
`stW`, by a different caller with a different action and duration, fails
with `AlreadyExist` and the original record survives. -/
theorem create_swap_existing_fails_already_exist_witness :
    getSwap stW.pendingSwaps 2 [6] =
      some { source := 1, action := 7, end_block := 15 } ∧
    (create_swap envW stW 4 2 [6] 8 99).1 =
      Except.error (DispatchError.Module SwapError.AlreadyExist) ∧
    (create_swap envW stW 4 2 [6] 8 99).2 = stW := by
  have h := create_swap_existing_fails_already_exist envW stW 4 2 [6] 8 99
    { source := 1, action := 7, end_block := 15 } (by decide)
  exact ⟨by decide, h.1, h.2.1⟩

/-- C5: for a pending swap, a cancel by the stored source fails with
`DurationNotPassed` while `blockNumber < end_block` and leaves the state
unchanged; at or after the deadline (`end_block ≤ blockNumber`, equality
included) it succeeds, applies the action's cancel to the source on the
external state, removes the record and deposits `SwapCancelled`. -/
theorem cancel_swap_deadline_gate (env : SwapEnv Action Ext E)
    (st : SwapState Action Ext) (source target : AccountId)
    (hashed_proof : HashedProof) (swap : PendingSwap Action)
    (hget : getSwap st.pendingSwaps target hashed_proof = some swap)
    (hsrc : swap.source = source) :
    (env.blockNumber < swap.end_block →
      cancel_swap env st source target hashed_proof =
        (Except.error (DispatchError.Module SwapError.DurationNotPassed), st)) ∧
    (swap.end_block ≤ env.blockNumber →
      (cancel_swap env st source target hashed_proof).1 = Except.ok () ∧
      getSwap (cancel_swap env st source target hashed_proof).2.pendingSwaps
        target hashed_proof = none ∧
      (cancel_swap env st source target hashed_proof).2.events =
        st.events ++ [SwapEvent.SwapCancelled target hashed_proof] ∧
      (cancel_swap env st source target hashed_proof).2.ext =
        env.cancelA swap.action swap.source st.ext) := by
  constructor
  · intro hdl
    exact cancel_swap_not_passed_eq env st source target hashed_proof swap
      hget hsrc hdl
  · intro hdl
    rw [cancel_swap_ok_eq env st source target hashed_proof swap hget hsrc hdl]
    exact ⟨rfl, getSwap_removeSwap_self .., rfl, rfl⟩

/-- Witness for C5: source 1 cancels the swap of `stW` (deadline 15): at
block 10 the call fails with `DurationNotPassed` and changes nothing; at
block 20 it succeeds and the record is gone. -/
theorem cancel_swap_deadline_gate_witness :
    getSwap stW.pendingSwaps 2 [6] =
      some { source := 1, action := 7, end_block := 15 } ∧
    cancel_swap envW stW 1 2 [6] =
      (Except.error (DispatchError.Module SwapError.DurationNotPassed), stW) ∧
    (cancel_swap envW2 stW 1 2 [6]).1 = Except.ok () ∧
    getSwap (cancel_swap envW2 stW 1 2 [6]).2.pendingSwaps 2 [6] = none := by
  have h1 := (cancel_swap_deadline_gate envW stW 1 2 [6]
    { source := 1, action := 7, end_block := 15 } (by decide) rfl).1 (by decide)
  have h2 := (cancel_swap_deadline_gate envW2 stW 1 2 [6]
    { source := 1, action := 7, end_block := 15 } (by decide) rfl).2 (by decide)
  exact ⟨by decide, h1, h2.1, h2.2.1⟩

/-- C6: for a pending swap and any caller different from the stored source,
`cancel_swap` fails with `SourceMismatch` and leaves the state unchanged,
for every value of the block counter — the environment, hence its block
number, is arbitrary here, so the source check precedes the deadline check
even at or after `end_block`. -/
theorem cancel_swap_source_mismatch_any_block (env : SwapEnv Action Ext E)
    (st : SwapState Action Ext) (caller target : AccountId)
    (hashed_proof : HashedProof) (swap : PendingSwap Action)
    (hget : getSwap st.pendingSwaps target hashed_proof = some swap)
    (hne : caller ≠ swap.source) :
    cancel_swap env st caller target hashed_proof =
      (Except.error (DispatchError.Module SwapError.SourceMismatch), st) := by
  exact cancel_swap_src_mismatch_eq env st caller target hashed_proof swap hget
    (fun hc => hne hc.symm)

/-- Witness for C6: account 3 (not the source 1) cancels the swap of `stW`
at block 20, past the deadline 15 — still `SourceMismatch`, state intact. -/
theorem cancel_swap_source_mismatch_any_block_witness :
    getSwap stW.pendingSwaps 2 [6] =
      some { source := 1, action := 7, end_block := 15 } ∧
    (3 : AccountId) ≠ (1 : AccountId) ∧
    envW2.blockNumber = 20 ∧
    cancel_swap envW2 stW 3 2 [6] =
      (Except.error (DispatchError.Module SwapError.SourceMismatch), stW) := by
  exact ⟨by decide, by decide, rfl,
    cancel_swap_source_mismatch_any_block envW2 stW 3 2 [6]
      { source := 1, action := 7, end_block := 15 } (by decide) (by decide)⟩

/-- C7: a proof longer than the configured limit makes `claim_swap` fail
with `ProofTooLarge` and return the state unchanged, uniformly in the
environment and state — in particular uniformly in the hash function and in
the store contents, so the outcome is decided before any hash computation
or lookup; replacing the hash function changes nothing. -/
theorem claim_swap_proof_too_large_before_hash (env : SwapEnv Action Ext E)
    (st : SwapState Action Ext) (target : AccountId) (proof : List Nat)
    (action : Action) (hlen : env.proofLimit < proof.length) :
    claim_swap env st target proof action =
      (Except.error (DispatchError.Module SwapError.ProofTooLarge), st) ∧
    (∀ g : List Nat → HashedProof,
      claim_swap { env with blake2_256 := g } st target proof action =
        claim_swap env st target proof action) := by
  constructor
  · exact claim_swap_too_large_eq env st target proof action hlen
  · intro g
    rw [claim_swap_too_large_eq env st target proof action hlen,
      claim_swap_too_large_eq { env with blake2_256 := g } st target proof
        action hlen]

/-- Witness for C7: a five-byte proof against limit 4 is rejected with
`ProofTooLarge`, leaving `stW` intact. -/
theorem claim_swap_proof_too_large_before_hash_witness :
    envW.proofLimit < ([9, 9, 9, 9, 9] : List Nat).length ∧
    claim_swap envW stW 2 [9, 9, 9, 9, 9] 7 =
      (Except.error (DispatchError.Module SwapError.ProofTooLarge), stW) := by
  exact ⟨by decide,
    (claim_swap_proof_too_large_before_hash envW stW 2 [9, 9, 9, 9, 9] 7
      (by decide)).1⟩

/-- C8: round-trip — on a fresh key, `create_swap(target := B,
hash := blake2_256 P, action := A, duration := D)` by `S` followed by
`claim_swap(proof := P, action := A)` issued by `B` (proof within the
limit, reservation succeeding) leaves no record at `(B, hash P)` and the
event log gains the `NewSwap` event and a `SwapClaimed` event carrying the
action's real transfer outcome on the post-reservation ledger. -/
theorem create_then_claim_round_trip (env : SwapEnv Action Ext E)
    (st : SwapState Action Ext) (S B : AccountId) (P : List Nat) (A : Action)
    (D : BlockNumber) (ext1 : Ext)
    (hfresh : contains_key st.pendingSwaps B (env.blake2_256 P) = false)
    (hres : env.reserveA A S st.ext = Except.ok ext1)
    (hlen : P.length ≤ env.proofLimit) :
    (create_swap env st S B (env.blake2_256 P) A D).1 = Except.ok () ∧
    (claim_swap env (create_swap env st S B (env.blake2_256 P) A D).2
      B P A).1 = Except.ok () ∧
    getSwap (claim_swap env (create_swap env st S B (env.blake2_256 P) A D).2
      B P A).2.pendingSwaps B (env.blake2_256 P) = none ∧
    (claim_swap env (create_swap env st S B (env.blake2_256 P) A D).2
      B P A).2.events =
      st.events
        ++ [SwapEvent.NewSwap B (env.blake2_256 P)
              { source := S, action := A, end_block := env.blockNumber + D }]
        ++ [SwapEvent.SwapClaimed B (env.blake2_256 P)
              (env.claimA A S B ext1).1] := by
  rw [create_swap_ok_eq env st S B (env.blake2_256 P) A D ext1 hfresh hres]
  rw [claim_swap_ok_eq env _ B P A
    { source := S, action := A, end_block := env.blockNumber + D }
    hlen (getSwap_insertSwap_self ..) rfl]
  exact ⟨rfl, rfl, getSwap_removeSwap_self .., rfl⟩

/-- Witness for C8: account 1 creates a swap for target 3 under the hash of
proof `[8]`, and 3 claims it with `[8]`; the key is empty afterwards. -/
theorem create_then_claim_round_trip_witness :
    contains_key stW.pendingSwaps 3 (envW.blake2_256 [8]) = false ∧
    ([8] : List Nat).length ≤ envW.proofLimit ∧
    (create_swap envW stW 1 3 (envW.blake2_256 [8]) 7 5).1 = Except.ok () ∧
    (claim_swap envW (create_swap envW stW 1 3 (envW.blake2_256 [8]) 7 5).2
      3 [8] 7).1 = Except.ok () ∧
    getSwap (claim_swap envW
      (create_swap envW stW 1 3 (envW.blake2_256 [8]) 7 5).2
      3 [8] 7).2.pendingSwaps 3 (envW.blake2_256 [8]) = none := by
  have h := create_then_claim_round_trip envW stW 1 3 [8] 7 5 7
    (by decide) rfl (by decide)
  exact ⟨by decide, by decide, h.1, h.2.1, h.2.2.1⟩

/-- C9 (implicit): `claim_swap` performs no deadline check — with a correct
proof and matching action it succeeds and removes the record even when the
block counter is at or past `end_block`, and its result does not depend on
the block counter at all. -/
theorem claim_swap_ignores_deadline (env : SwapEnv Action Ext E)
    (st : SwapState Action Ext) (target : AccountId) (proof : List Nat)
    (action : Action) (swap : PendingSwap Action)
    (hlen : proof.length ≤ env.proofLimit)
    (hget : getSwap st.pendingSwaps target (env.blake2_256 proof) = some swap)
    (hact : swap.action = action)
    (hexp : swap.end_block ≤ env.blockNumber) :
    (claim_swap env st target proof action).1 = Except.ok () ∧
    getSwap (claim_swap env st target proof action).2.pendingSwaps target
      (env.blake2_256 proof) = none ∧
    (∀ n, claim_swap { env with blockNumber := n } st target proof action =
      claim_swap env st target proof action) := by
  rw [claim_swap_ok_eq env st target proof action swap hlen hget hact]
  refine ⟨rfl, getSwap_removeSwap_self .., ?_⟩
  intro n
  rw [claim_swap_ok_eq { env with blockNumber := n } st target proof action
    swap hlen hget hact]

/-- Witness for C9: the swap of `stW` has deadline 15, the counter of
`envW2` is 20, and the claim by target 2 with proof `[5]` still succeeds
and removes the record. -/
theorem claim_swap_ignores_deadline_witness :
    (15 : Nat) ≤ envW2.blockNumber ∧
    getSwap stW.pendingSwaps 2 (envW2.blake2_256 [5]) =
      some { source := 1, action := 7, end_block := 15 } ∧
    (claim_swap envW2 stW 2 [5] 7).1 = Except.ok () ∧
    getSwap (claim_swap envW2 stW 2 [5] 7).2.pendingSwaps 2
      (envW2.blake2_256 [5]) = none := by
  have h := claim_swap_ignores_deadline envW2 stW 2 [5] 7
    { source := 1, action := 7, end_block := 15 }
    (by decide) (by decide) rfl (by decide)
  exact ⟨by decide, by decide, h.1, h.2.1⟩

/-- C10 (implicit): `create_swap` accepts duration 0 without validation;
the stored deadline then equals the creation block, and since the cancel
gate is `end_block ≤ blockNumber`, the source can cancel successfully in
the very same block, removing the record before any claim. -/
theorem create_swap_zero_duration_same_block_cancel (env : SwapEnv Action Ext E)
    (st : SwapState Action Ext) (source target : AccountId)
    (hashed_proof : HashedProof) (action : Action) (ext1 : Ext)
    (hfresh : contains_key st.pendingSwaps target hashed_proof = false)
    (hres : env.reserveA action source st.ext = Except.ok ext1) :
    (create_swap env st source target hashed_proof action 0).1 = Except.ok () ∧
    getSwap (create_swap env st source target hashed_proof action
      0).2.pendingSwaps target hashed_proof =
      some { source := source, action := action,
             end_block := env.blockNumber } ∧
    (cancel_swap env (create_swap env st source target hashed_proof action 0).2
      source target hashed_proof).1 = Except.ok () ∧
    getSwap (cancel_swap env
      (create_swap env st source target hashed_proof action 0).2
      source target hashed_proof).2.pendingSwaps target hashed_proof = none := by
  rw [create_swap_ok_eq env st source target hashed_proof action 0 ext1
    hfresh hres]
  rw [cancel_swap_ok_eq env _ source target hashed_proof
    { source := source, action := action, end_block := env.blockNumber + 0 }
    (getSwap_insertSwap_self ..) rfl (Nat.le_refl _)]
  exact ⟨rfl, getSwap_insertSwap_self .., rfl, getSwap_removeSwap_self ..⟩

/-- Witness for C10: account 1 creates a swap at the fresh key `(3, [9])`
with duration 0 at block 10; the stored deadline is 10, and cancelling in
the same block succeeds and empties the key. -/
theorem create_swap_zero_duration_same_block_cancel_witness :
    contains_key stW.pendingSwaps 3 [9] = false ∧
    (create_swap envW stW 1 3 [9] 7 0).1 = Except.ok () ∧
    getSwap (create_swap envW stW 1 3 [9] 7 0).2.pendingSwaps 3 [9] =
      some { source := 1, action := 7, end_block := 10 } ∧
    (cancel_swap envW (create_swap envW stW 1 3 [9] 7 0).2 1 3 [9]).1 =
      Except.ok () ∧
    getSwap (cancel_swap envW (create_swap envW stW 1 3 [9] 7 0).2
      1 3 [9]).2.pendingSwaps 3 [9] = none := by
  have h := create_swap_zero_duration_same_block_cancel envW stW 1 3 [9] 7 7
    (by decide) rfl
  exact ⟨by decide, h.1, h.2.1, h.2.2.1, h.2.2.2⟩

end AtomicSwap
